import Mathlib

/-!
Shallow embedding of `my_model_selectors.py` (AIND-Recognizer model-selection
strategy layer): the `ModelSelector` base class and the four strategies
`SelectorConstant`, `SelectorBIC`, `SelectorDIC`, `SelectorCV`.

Python exceptions are modelled with `Except PyErr`; the external trainer
(`hmmlearn.hmm.GaussianHMM.fit` / `.score`) and `np.log` are modelled by an
`Oracle` of abstract deterministic functions; a `fit` or `score` failure
(a raised exception in Python) is an `Oracle` answer of `false` / `none`.
A fitted `Model` records the constructor arguments of the `GaussianHMM` call
that produced it and the data it was fitted on, so that theorems can speak
about which arguments (in particular `random_state`) each call site passed.
Scores (log-likelihoods, Python floats) are modelled as rationals.
-/

namespace ASL

/-- Python exception kinds relevant to `my_model_selectors.py`. -/
inductive PyErr where
  | nameError (msg : String)
  | typeError (msg : String)
  | attributeError (msg : String)
  | valueError (msg : String)
  | keyError (msg : String)
  | fitFailure
  | scoreFailure
deriving DecidableEq

/-- Arguments of a `GaussianHMM(...)` constructor call, as passed at a given
call site; `none` means the keyword argument was not passed. -/
structure HMMConfig where
  nComponents : ℕ
  nIter : ℕ
  covarianceType : Option String := none
  randomState : Option ℕ := none
deriving DecidableEq

/-- A fitted model: the constructor arguments of the `GaussianHMM` call and
the `(X, lengths)` data it was fitted on. -/
structure Model where
  config : HMMConfig
  fitX : List (List ℚ)
  fitLengths : List ℕ
deriving DecidableEq

/-- The external collaborators, as deterministic functions: whether a
`fit` call succeeds, what a `score` call returns (`none` = raises), and
`np.log` on a natural number. -/
structure Oracle where
  fitOk : HMMConfig → List (List ℚ) → List ℕ → Bool
  score : Model → List (List ℚ) → List ℕ → Option ℚ
  log : ℕ → ℚ

/-- The fields set by `ModelSelector.__init__` (lines 16-29): per-vocabulary
maps, the target word's sequences and concatenated `(X, lengths)`, and the
search configuration. -/
structure Selector where
  words : List (String × List (List (List ℚ)))
  hwords : List (String × (List (List ℚ) × List ℕ))
  sequences : List (List (List ℚ))
  X : List (List ℚ)
  lengths : List ℕ
  this_word : String
  n_constant : ℕ
  min_n_components : ℕ
  max_n_components : ℕ
  random_state : ℕ
  verbose : Bool
deriving DecidableEq

/-- A `GaussianHMM(cfg).fit(X, lengths)` call: on oracle-reported failure the
Python call raises, modelled as `fitFailure`. -/
def fitE (o : Oracle) (cfg : HMMConfig) (X : List (List ℚ)) (lengths : List ℕ) :
    Except PyErr Model :=
  if o.fitOk cfg X lengths then Except.ok ⟨cfg, X, lengths⟩
  else Except.error PyErr.fitFailure

/-- A `model.score(X, lengths)` call: `none` from the oracle means the Python
call raises, modelled as `scoreFailure`. -/
def scoreE (o : Oracle) (m : Model) (X : List (List ℚ)) (lengths : List ℕ) :
    Except PyErr ℚ :=
  match o.score m X lengths with
  | some v => Except.ok v
  | none => Except.error PyErr.scoreFailure

/-- Python `min(list)` : raises ValueError on an empty list. -/
def pyMin (l : List ℕ) : Except PyErr ℕ :=
  match l with
  | [] => Except.error (PyErr.valueError "min arg is an empty sequence")
  | x :: xs => Except.ok (xs.foldl Nat.min x)

/-- Comparison `q < record` where `record` starts as `float(inf)`;
`none` stands for positive infinity. -/
def ltOpt (q : ℚ) : Option ℚ → Bool
  | none => true
  | some r => decide (q < r)

/-- Comparison `q > record` where `record` starts as `float(-inf)`;
`none` stands for negative infinity. -/
def gtOpt (q : ℚ) : Option ℚ → Bool
  | none => true
  | some r => decide (r < q)

/-- The candidate list `range(self.min_n_components, self.max_n_components + 1)`. -/
def candRange (s : Selector) : List ℕ :=
  List.range' s.min_n_components (s.max_n_components + 1 - s.min_n_components)

/-- The mutation `self.max_n_components = min(self.max_n_components, min_seq)`
performed by `SelectorBIC.select` (line 84) and `SelectorCV.select` (line 166). -/
def clampMax (s : Selector) (min_seq : ℕ) : Selector :=
  { s with max_n_components := Nat.min s.max_n_components min_seq }

/-- Constructor arguments of the `GaussianHMM` call in `ModelSelector.base_model`
(line 39): `n_components=num_states, covariance_type="diag", n_iter=1000,
random_state=self.random_state`. -/
def baseCfg (s : Selector) (num_states : ℕ) : HMMConfig :=
  { nComponents := num_states, nIter := 1000,
    covarianceType := some "diag", randomState := some s.random_state }

/-- `ModelSelector.base_model` (lines 34-47): fit with the configured seed and
diagonal covariance; any trainer exception is caught and `None` returned. -/
def base_model (s : Selector) (o : Oracle) (num_states : ℕ) : Option Model :=
  (fitE o (baseCfg s num_states) s.X s.lengths).toOption

/-- `SelectorConstant.select` (lines 55-61): returns `base_model(n_constant)`;
the selector state is returned unchanged. -/
def constantSelect (s : Selector) (o : Oracle) : Except PyErr (Option Model) × Selector :=
  (Except.ok (base_model s o s.n_constant), s)

/-- Constructor arguments of the per-candidate `GaussianHMM` call in
`SelectorBIC.select` (line 90): only `n_components=num, n_iter=1000`;
no `covariance_type`, no `random_state`. -/
def bicCandCfg (num : ℕ) : HMMConfig :=
  { nComponents := num, nIter := 1000 }

/-- The try-block body of `SelectorBIC.select` for one candidate (lines 90-94):
fit, score, `p = num*num + 2*num*len(X[0]) - 1`, `BIC = -2*logL + p*np.log(len(X))`.
`self.X[0]` on an empty matrix raises (caught by the enclosing except). -/
def bicTry (s : Selector) (o : Oracle) (num : ℕ) : Except PyErr (ℚ × Model) := do
  let model ← fitE o (bicCandCfg num) s.X s.lengths
  let logL ← scoreE o model s.X s.lengths
  let d ← match s.X with
    | [] => Except.error (PyErr.valueError "index 0 is out of bounds")
    | r :: _ => Except.ok r.length
  let p : ℤ := (num : ℤ) * num + 2 * num * d - 1
  Except.ok (-2 * logL + (p : ℚ) * o.log s.X.length, model)

/-- The candidate loop of `SelectorBIC.select` (lines 87-99): accumulator is
`(record, hmm_model)`; a raised exception skips the candidate; the update fires
on `BIC < record` (strict). -/
def bicLoop (s : Selector) (o : Oracle) :
    List ℕ → Option ℚ × Option Model → Option ℚ × Option Model
  | [], acc => acc
  | num :: rest, acc =>
    match bicTry s o num with
    | Except.error _ => bicLoop s o rest acc
    | Except.ok c =>
        bicLoop s o rest (if ltOpt c.1 acc.1 then (some c.1, some c.2) else acc)

/-- `SelectorBIC.select` (lines 71-101): compute the shortest-sequence length
(line 83; `min([])` raises on an empty sequence list), clamp `max_n_components`
(line 84), precompute the fallback `base_model(n_constant)` (line 86), run the
candidate loop, return the best model together with the mutated selector. -/
def bicSelect (s : Selector) (o : Oracle) : Except PyErr (Option Model) × Selector :=
  match pyMin (s.sequences.map List.length) with
  | Except.error e => (Except.error e, s)
  | Except.ok min_seq =>
    let s1 := clampMax s min_seq
    let hmm0 := base_model s1 o s1.n_constant
    (Except.ok (bicLoop s1 o (candRange s1) ((none : Option ℚ), hmm0)).2, s1)

/-- One update step of the BIC best-so-far accumulator, on the list of
successful candidates `(num, BIC, model)`. -/
def bicUpd (acc : Option ℚ × Option Model) (x : ℕ × ℚ × Model) :
    Option ℚ × Option Model :=
  if ltOpt x.2.1 acc.1 then (some x.2.1, some x.2.2) else acc

/-- The successful BIC candidates, in loop order: state count, BIC score and
fitted model for every candidate whose try-block did not raise. -/
def bicSuccs (s : Selector) (o : Oracle) : List (ℕ × ℚ × Model) :=
  (candRange s).filterMap fun num => ((bicTry s o num).toOption).map fun c => (num, c)

/-- Constructor arguments of the per-candidate `GaussianHMM` call in
`SelectorDIC.select` (line 126): only `n` and `n_iter=1000`, no `random_state`. -/
def dicCandCfg (n : ℕ) : HMMConfig :=
  { nComponents := n, nIter := 1000 }

/-- Python `self.words - 1` (line 139): `dict.__sub__` with an `int` is
unsupported, so the expression raises TypeError. -/
def pyDictSubInt (d : List (String × List (List (List ℚ)))) (k : ℤ) :
    Except PyErr (List (String × List (List (List ℚ)))) :=
  Except.error (PyErr.typeError "unsupported operand types for minus: dict and int")

/-- Python dict subscription `d[k]` on an association list: the first binding
of the key, a KeyError when absent. -/
def pyDictGet {α : Type} : List (String × α) → String → Except PyErr α
  | [], k => Except.error (PyErr.keyError k)
  | kv :: rest, k => if kv.1 = k then Except.ok kv.2 else pyDictGet rest k

/-- Lines 131-137 of `SelectorDIC.select`: for every vocabulary word other than
the target, score the candidate model on that word's `(X, lengths)` from
`self.hwords` and accumulate the sum of log-likelihoods. -/
def dicSumOthers (s : Selector) (o : Oracle) (model : Model) : Except PyErr ℚ :=
  s.words.foldlM
    (fun acc kv =>
      if kv.1 = s.this_word then Except.ok acc
      else do
        let p ← pyDictGet s.hwords kv.1
        let logL ← scoreE o model p.1 p.2
        Except.ok (acc + logL))
    0

/-- The try-block body of `SelectorDIC.select` for one candidate (lines 125-145):
fit, score the target word, sum the scores of the other words, then evaluate
`sum_prob_others / len(self.words - 1)` — whose subexpression `self.words - 1`
raises TypeError — and form `DIC = original_prob - avg_prob_others`. -/
def dicTry (s : Selector) (o : Oracle) (n : ℕ) : Except PyErr ℚ := do
  let model ← fitE o (dicCandCfg n) s.X s.lengths
  let original_prob ← scoreE o model s.X s.lengths
  let sum_prob_others ← dicSumOthers s o model
  let wsub ← pyDictSubInt s.words 1
  let avg_prob_others := sum_prob_others / (wsub.length : ℚ)
  Except.ok (original_prob - avg_prob_others)

/-- Lines 123-151 of `SelectorDIC.select`, the part after the statement
`n_components = n` (dead code, since line 121 raises first): the candidate loop
whose try-block exceptions are swallowed by the bare `except: pass`, updating
`(best_DIC, best_n)` on `DIC > best_DIC` with `best_n` initialized to
`self.random_state` (line 118); then line 149 evaluates
`GaussianHMM(best_n, n_iter=1000).fir(...)` — `fir` is not an attribute of
`GaussianHMM`, so AttributeError propagates whatever the loop did. -/
def dicDeadRest (s : Selector) (o : Oracle) : Except PyErr (Option Model) :=
  let best := (candRange s).foldl
    (fun (acc : Option ℚ × ℕ) n =>
      match dicTry s o n with
      | Except.error _ => acc
      | Except.ok dic => if gtOpt dic acc.1 then (some dic, n) else acc)
    ((none : Option ℚ), s.random_state)
  let _ := best
  Except.error (PyErr.attributeError "GaussianHMM object has no attribute fir")

/-- `SelectorDIC.select` (lines 112-151): lines 118-120 bind locals, then line
121 executes `n_components = n` where the name `n` is unbound (it is neither a
parameter nor a module global), so every call raises NameError before reaching
the candidate loop; lines 123-151 are dead code (modelled by `dicDeadRest`).
No selector field is assigned before the raise, so the state is unchanged. -/
def dicSelect (s : Selector) (o : Oracle) : Except PyErr (Option Model) × Selector :=
  (Except.error (PyErr.nameError "name n is not defined"), s)

/-- Constructor arguments of the per-fold `GaussianHMM` call in
`SelectorCV.select` (line 186): only `n_components=num, n_iter=1000`,
no `random_state`. -/
def cvCandCfg (num : ℕ) : HMMConfig :=
  { nComponents := num, nIter := 1000 }

/-- The model object produced by a successful per-fold fit in `SelectorCV.select`. -/
def cvFitModel (num : ℕ) (trainX : List (List ℚ)) (trainL : List ℕ) : Model :=
  ⟨cvCandCfg num, trainX, trainL⟩

/-- Modelled from the spec: the external Sequence Combiner `combine_sequences`
(imported from `asl_utils`, not part of this package): given fold indices and
the word's sequence list, return the concatenated feature matrix of the
selected sequences and the list of their lengths. -/
def combine_sequences (idxs : List ℕ) (sequences : List (List (List ℚ))) :
    List (List ℚ) × List ℕ :=
  let sel := idxs.filterMap fun i => sequences[i]?
  (sel.foldr (· ++ ·) [], sel.map List.length)

/-- Arguments of a `KFold(...)` constructor call (defaults: `shuffle=False`,
`random_state=None`). -/
structure KFoldSpec where
  nSplits : ℕ
  shuffle : Bool := false
  randomState : Option ℕ := none
deriving DecidableEq

/-- The branch on `len(self.sequences)` in `SelectorCV.select` (lines 168-174):
1 sequence — no splitter, return the fallback; 2 — `KFold(n_splits=2)`;
otherwise — `KFold(n_splits=3, random_state=self.random_state)`. -/
def cvSplitSpec (nseq : ℕ) (random_state : ℕ) : Option KFoldSpec :=
  if nseq = 1 then none
  else if nseq = 2 then some ⟨2, false, none⟩
  else some ⟨3, false, some random_state⟩

/-- Sizes of the `k` test folds of sklearn `KFold` without shuffling over `n`
samples: the first `n % k` folds have `n / k + 1` samples, the rest `n / k`. -/
def kfoldTestSizes (n k : ℕ) : List ℕ :=
  (List.range k).map fun i => n / k + if i < n % k then 1 else 0

/-- Turn a list of chunk sizes into `(start, size)` pairs of consecutive chunks. -/
def kfoldStarts : ℕ → List ℕ → List (ℕ × ℕ)
  | _, [] => []
  | st, sz :: rest => (st, sz) :: kfoldStarts (st + sz) rest

/-- The `(train_indices, test_indices)` pairs yielded by
`KFold(n_splits=k).split` on `n` samples (shuffle off: contiguous test chunks,
train = complement, both in increasing order). -/
def kfoldSplit (k n : ℕ) : List (List ℕ × List ℕ) :=
  (kfoldStarts 0 (kfoldTestSizes n k)).map fun c =>
    ((List.range n).filter (fun i => decide (i < c.1) || decide (c.1 + c.2 ≤ i)),
     List.range' c.1 c.2)

/-- The inner fold loop body of `SelectorCV.select` (lines 182-191), one fold.
State is `(logL, cnt, model)` where `model` is the last `model` binding (the
Python local persists across folds and candidates; `none` = still unbound).
`combine_sequences` on the train indices runs before the try-block; inside it:
fit (a raise skips the fold), rebind `(X, lengths)` to the test data, and add
`model.score` to `logL`; a raise in `score` still leaves `model` bound.
No statement increments `cnt`. -/
def cvFoldStep (s : Selector) (o : Oracle) (num : ℕ)
    (acc : ℚ × ℕ × Option Model) (fold : List ℕ × List ℕ) :
    ℚ × ℕ × Option Model :=
  let train := combine_sequences fold.1 s.sequences
  if o.fitOk (cvCandCfg num) train.1 train.2 then
    let m := cvFitModel num train.1 train.2
    let test := combine_sequences fold.2 s.sequences
    match o.score m test.1 test.2 with
    | some v => (acc.1 + v, acc.2.1, some m)
    | none => (acc.1, acc.2.1, some m)
  else acc

/-- The per-candidate body of `SelectorCV.select` (lines 177-194): reset
`logL = 0` and `cnt = 0`, run the folds, then
`if cnt > 0 and logL/cnt > record: record = logL; hmm_model = model` —
note the comparison uses the mean but the assignment stores the sum, and
reading `model` while unbound would raise NameError. -/
def cvCandStep (s : Selector) (o : Oracle) (folds : List (List ℕ × List ℕ))
    (acc : Option ℚ × Option Model × Option Model) (num : ℕ) :
    Except PyErr (Option ℚ × Option Model × Option Model) :=
  let st := folds.foldl (cvFoldStep s o num) (0, 0, acc.2.2)
  if st.2.1 ≠ 0 ∧ gtOpt (st.1 / (st.2.1 : ℚ)) acc.1 then
    match st.2.2 with
    | some m => Except.ok (some st.1, some m, st.2.2)
    | none => Except.error (PyErr.nameError "name model is not defined")
  else Except.ok (acc.1, acc.2.1, st.2.2)

/-- `SelectorCV.select` (lines 158-195): clamp `max_n_components` to the
shortest sequence length (line 166; `min([])` raises on an empty sequence
list), precompute the fallback `base_model(n_constant)` (line 167), choose the
fold policy from the number of sequences (lines 168-174, `cvSplitSpec`), run
the candidate loop and return `hmm_model` with the mutated selector. -/
def cvSelect (s : Selector) (o : Oracle) : Except PyErr (Option Model) × Selector :=
  match pyMin (s.sequences.map List.length) with
  | Except.error e => (Except.error e, s)
  | Except.ok min_seq =>
    let s1 := clampMax s min_seq
    let hmm0 := base_model s1 o s1.n_constant
    match cvSplitSpec s1.sequences.length s1.random_state with
    | none => (Except.ok hmm0, s1)
    | some km =>
      let folds := kfoldSplit km.nSplits s1.sequences.length
      match (candRange s1).foldlM (cvCandStep s1 o folds)
          ((none : Option ℚ), hmm0, (none : Option Model)) with
      | Except.error e => (Except.error e, s1)
      | Except.ok st => (Except.ok st.2.1, s1)

/-! Concrete inputs used to evaluate the embedding. -/

/-- A two-frame, two-feature sequence. -/
def seqP : List (List ℚ) := [[0, 1], [2, 3]]

/-- A one-frame, two-feature sequence. -/
def seqQ : List (List ℚ) := [[4, 5]]

/-- A three-frame, two-feature sequence. -/
def seqR : List (List ℚ) := [[6, 7], [8, 9], [10, 11]]

/-- A selector for word `A` in a three-word vocabulary, one two-frame sequence. -/
def sEx : Selector :=
  { words := [("A", [seqP]), ("B", [seqQ]), ("C", [seqR])],
    hwords := [("A", (seqP, [2])), ("B", (seqQ, [1])), ("C", (seqR, [3]))],
    sequences := [seqP],
    X := seqP, lengths := [2],
    this_word := "A", n_constant := 3,
    min_n_components := 2, max_n_components := 4,
    random_state := 14, verbose := false }

/-- A selector for word `C` (one three-frame sequence), giving two BIC
candidates after clamping. -/
def sCx : Selector :=
  { sEx with sequences := [seqR], X := seqR, lengths := [3], this_word := "C" }

/-- A selector whose word has three two-frame sequences (for the CV fold loop). -/
def sCv3 : Selector :=
  { sEx with sequences := [seqP, seqP, seqP],
             X := seqP ++ seqP ++ seqP, lengths := [2, 2, 2] }

/-- An oracle on which every fit succeeds and every score is 7; `np.log` is
modelled as the identity on the input size. -/
def oEx : Oracle :=
  { fitOk := fun _ _ _ => true,
    score := fun _ _ _ => some 7,
    log := fun n => (n : ℚ) }

/-- An oracle on which every fit fails. -/
def oFail : Oracle :=
  { fitOk := fun _ _ _ => false,
    score := fun _ _ _ => none,
    log := fun n => (n : ℚ) }

/-- An oracle whose scores grow with the candidate's state count, so larger
state counts get strictly lower BIC; `np.log` is modelled as zero. -/
def oGrow : Oracle :=
  { fitOk := fun _ _ _ => true,
    score := fun m _ _ => some ((m.config.nComponents : ℚ) * 10),
    log := fun _ => 0 }

/-- An oracle on which every fit succeeds and every score is 5; used for the
CV fold-counter evaluation. -/
def oCv : Oracle :=
  { fitOk := fun _ _ _ => true,
    score := fun _ _ _ => some 5,
    log := fun _ => 0 }

/-!  Helper lemmas (shared infrastructure for the claim theorems). -/

/-- The BIC candidate loop is the fold of `bicUpd` over the successful
candidates, in order. -/
theorem bicLoop_eq_foldl (s : Selector) (o : Oracle) :
    ∀ (nums : List ℕ) (acc : Option ℚ × Option Model),
      bicLoop s o nums acc =
        (nums.filterMap fun num =>
          ((bicTry s o num).toOption).map fun c => (num, c)).foldl bicUpd acc
  | [], _ => rfl
  | num :: rest, acc => by
    cases h : bicTry s o num with
    | error e =>
        simp [bicLoop, h, List.filterMap_cons, Except.toOption,
          bicLoop_eq_foldl s o rest]
    | ok c =>
        simp [bicLoop, h, List.filterMap_cons, Except.toOption, bicUpd,
          bicLoop_eq_foldl s o rest]

/-- Behaviour of the strict-improvement fold from a finite best-so-far score:
either no element beats `r` and the accumulator is unchanged, or the result is
the first element attaining the minimum of the list (strictly below `r`). -/
theorem bicFoldl_spec :
    ∀ (l : List (ℕ × ℚ × Model)) (r : ℚ) (m : Option Model),
      (l.foldl bicUpd (some r, m) = (some r, m) ∧ ∀ x ∈ l, r ≤ x.2.1) ∨
      (∃ p l₁ l₂, l.foldl bicUpd (some r, m) = (some p.2.1, some p.2.2) ∧
        l = l₁ ++ p :: l₂ ∧ p.2.1 < r ∧
        (∀ x ∈ l₁, p.2.1 < x.2.1) ∧ (∀ x ∈ l₂, p.2.1 ≤ x.2.1))
  | [], r, m => Or.inl ⟨rfl, by simp⟩
  | c :: cs, r, m => by
    by_cases h : c.2.1 < r
    · have hstep : bicUpd (some r, m) c = (some c.2.1, some c.2.2) := by
        simp [bicUpd, ltOpt, h]
      rcases bicFoldl_spec cs c.2.1 (some c.2.2) with
        ⟨heq, hall⟩ | ⟨p, l₁, l₂, heq, hdec, hlt, h₁, h₂⟩
      · refine Or.inr ⟨c, [], cs, ?_, by simp, h, by simp, hall⟩
        simpa [List.foldl_cons, hstep] using heq
      · refine Or.inr ⟨p, c :: l₁, l₂, ?_, by simp [hdec], lt_trans hlt h, ?_, h₂⟩
        · simpa [List.foldl_cons, hstep] using heq
        · intro x hx
          rcases List.mem_cons.mp hx with rfl | hx
          · exact hlt
          · exact h₁ x hx
    · have hstep : bicUpd (some r, m) c = (some r, m) := by
        simp [bicUpd, ltOpt, h]
      rcases bicFoldl_spec cs r m with
        ⟨heq, hall⟩ | ⟨p, l₁, l₂, heq, hdec, hlt, h₁, h₂⟩
      · refine Or.inl ⟨by simpa [List.foldl_cons, hstep] using heq, ?_⟩
        intro x hx
        rcases List.mem_cons.mp hx with rfl | hx
        · exact le_of_not_lt h
        · exact hall x hx
      · refine Or.inr ⟨p, c :: l₁, l₂,
          by simpa [List.foldl_cons, hstep] using heq, by simp [hdec], hlt, ?_, h₂⟩
        intro x hx
        rcases List.mem_cons.mp hx with rfl | hx
        · exact lt_of_lt_of_le hlt (le_of_not_lt h)
        · exact h₁ x hx

/-- When every candidate's try-block raises, the BIC loop leaves the
accumulator untouched. -/
theorem bicLoop_allfail (s : Selector) (o : Oracle) :
    ∀ (nums : List ℕ) (acc : Option ℚ × Option Model),
      (∀ num ∈ nums, (bicTry s o num).toOption = none) →
      bicLoop s o nums acc = acc
  | [], _, _ => rfl
  | num :: rest, acc, hfail => by
    cases h : bicTry s o num with
    | error e =>
        simpa [bicLoop, h] using
          bicLoop_allfail s o rest acc (fun n hn => hfail n (List.mem_cons_of_mem _ hn))
    | ok c =>
        exact absurd (hfail num (List.mem_cons_self _ _)) (by simp [h, Except.toOption])

/-- `kfoldStarts` preserves the number of chunks. -/
theorem kfoldStarts_length : ∀ (st : ℕ) (l : List ℕ), (kfoldStarts st l).length = l.length
  | _, [] => rfl
  | st, sz :: rest => by simp [kfoldStarts, kfoldStarts_length (st + sz) rest]

/-- `KFold(n_splits=k).split` yields exactly `k` folds. -/
theorem kfoldSplit_length (k n : ℕ) : (kfoldSplit k n).length = k := by
  simp [kfoldSplit, kfoldStarts_length, kfoldTestSizes]

/-!  Claim theorems. -/

/-- C1: the claim says every strategy's `select()` returns a model or `None`
and never propagates an error. On a validly constructed selector (three-word
vocabulary, one feasible sequence) with a trainer on which every fit and score
succeeds, `SelectorDIC.select` nevertheless raises NameError (line 121 reads
the unbound name `n`), which propagates to the caller. -/
theorem c1_dic_select_raises :
    dicSelect sEx oEx = (Except.error (PyErr.nameError "name n is not defined"), sEx) :=
  rfl

/-- C2: the claim says CV updates the best score/model to a candidate's mean
over its successful folds whenever at least one fold succeeded and the mean
beats the best so far. On a word with three sequences and a trainer on which
every per-fold fit and score succeeds (score 5 per fold), all three folds of
candidate 2 succeed and contribute `logL = 15`, yet the successful-fold
counter `cnt` stays `0` (no statement increments it), so the gate
`cnt > 0` never fires and `select` returns the constant fallback
`base_model(n_constant)` instead of any cross-validated candidate. -/
theorem c2_cv_counter_never_incremented :
    ((kfoldSplit 3 3).foldl (cvFoldStep (clampMax sCv3 2) oCv 2) (0, 0, none)).1 = 15 ∧
    ((kfoldSplit 3 3).foldl (cvFoldStep (clampMax sCv3 2) oCv 2) (0, 0, none)).2.1 = 0 ∧
    (cvSelect sCv3 oCv).1 = Except.ok (base_model (clampMax sCv3 2) oCv 3) := by
  refine ⟨?_, rfl, rfl⟩
  norm_num [kfoldSplit, kfoldStarts, kfoldTestSizes, cvFoldStep, cvFitModel, cvCandCfg,
    combine_sequences, clampMax, sCv3, sEx, oCv, seqP, List.range, List.range']

/-- C3: the claim says DIC's average-of-others term divides the sum of the
other words' log-likelihoods by vocabulary size minus one. On a three-word
vocabulary with every fit and score succeeding, the sum over the two other
words is computed (here `14`), but the divisor expression `len(self.words - 1)`
(line 139) subtracts an `int` from a `dict` and raises TypeError — swallowed by
the bare `except`, so no candidate's DIC value is ever produced; the division
by `vocabulary_size - 1 = 2` never happens. -/
theorem c3_dic_divisor_raises :
    dicSumOthers sEx oEx ⟨dicCandCfg 2, seqP, [2]⟩ = Except.ok 14 ∧
    pyDictSubInt sEx.words 1 =
      Except.error (PyErr.typeError "unsupported operand types for minus: dict and int") ∧
    dicTry sEx oEx 2 =
      Except.error (PyErr.typeError "unsupported operand types for minus: dict and int") := by
  refine ⟨?_, rfl, ?_⟩
  · norm_num +decide [dicSumOthers, scoreE, pyDictGet, sEx, oEx, seqP, seqQ, seqR,
      Bind.bind, Except.bind, pure, Except.pure]
  · norm_num +decide [dicTry, dicSumOthers, pyDictSubInt, fitE, scoreE, dicCandCfg, pyDictGet,
      sEx, oEx, seqP, Bind.bind, Except.bind, pure, Except.pure]

/-- C4: the claim says that when every DIC candidate fails, `select()` returns
`None` as an explicit failure outcome. With a trainer on which every fit fails,
`SelectorDIC.select` instead raises: NameError at line 121 before the loop, and
even the dead code after that line would raise AttributeError at line 149
(`.fir` is not an attribute of `GaussianHMM`) rather than return `None`. -/
theorem c4_dic_allfail_crashes :
    dicSelect sEx oFail = (Except.error (PyErr.nameError "name n is not defined"), sEx) ∧
    dicDeadRest sEx oFail =
      Except.error (PyErr.attributeError "GaussianHMM object has no attribute fir") :=
  ⟨rfl, rfl⟩

/-- C5 counterexample: the claim says BIC's `select()` never returns `None`.
With a trainer on which every fit fails, every candidate fails and the
precomputed fallback `base_model(n_constant)` is itself `None` (its fit also
failed and `base_model` catches the error), so `select()` returns `None`. -/
theorem c5_bic_allfail_none_counterexample :
    (bicSelect sEx oFail).1 = Except.ok none :=
  rfl

/-- C5 (amended): if every candidate state count fails during BIC's search,
`select()` returns the result of the fallback `base_model(n_constant)` call
made before the search — which is `None` exactly when that fallback fit
itself failed. -/
theorem c5_bic_allfail_returns_fallback (s : Selector) (o : Oracle) (ms : ℕ)
    (hms : pyMin (s.sequences.map List.length) = Except.ok ms)
    (hfail : ∀ num ∈ candRange (clampMax s ms),
      (bicTry (clampMax s ms) o num).toOption = none) :
    (bicSelect s o).1 = Except.ok (base_model (clampMax s ms) o s.n_constant) := by
  simp only [bicSelect, hms]
  rw [bicLoop_allfail (clampMax s ms) o (candRange (clampMax s ms)) _ hfail]
  rfl

/-- C5 witness: concrete instance of `c5_bic_allfail_returns_fallback` on the
all-failing trainer. -/
theorem c5_bic_allfail_fallback_witness :
    pyMin (sEx.sequences.map List.length) = Except.ok 2 ∧
    (∀ num ∈ candRange (clampMax sEx 2), (bicTry (clampMax sEx 2) oFail num).toOption = none) ∧
    (bicSelect sEx oFail).1 = Except.ok (base_model (clampMax sEx 2) oFail sEx.n_constant) :=
  ⟨rfl, by decide, c5_bic_allfail_returns_fallback sEx oFail 2 rfl (by decide)⟩

/-- C6: for every BIC candidate `num` whose fit and scoring succeed, the score
used for comparison is `-2 * logL + p * ln N` with `p = num² + 2·num·d - 1`,
where `d` is the number of feature columns (the length of the first row of the
feature matrix) and `N` the total number of observation frames (its number of
rows). -/
theorem c6_bic_score_formula (s : Selector) (o : Oracle) (num : ℕ) (logL : ℚ)
    (r : List ℚ) (rest : List (List ℚ))
    (hX : s.X = r :: rest)
    (hfit : o.fitOk (bicCandCfg num) s.X s.lengths = true)
    (hscore : o.score ⟨bicCandCfg num, s.X, s.lengths⟩ s.X s.lengths = some logL) :
    bicTry s o num = Except.ok
      (-2 * logL + (((num : ℤ) * num + 2 * num * r.length - 1 : ℤ) : ℚ) * o.log s.X.length,
       ⟨bicCandCfg num, s.X, s.lengths⟩) := by
  rw [hX] at hfit hscore
  simp [bicTry, fitE, scoreE, hX, hfit, hscore, Bind.bind, Except.bind]

/-- C6 witness: concrete instance of `c6_bic_score_formula` with `d = 2`
columns, `N = 2` frames, `logL = 7`: the BIC value is `-14 + 11 * ln 2`. -/
theorem c6_bic_score_formula_witness :
    sEx.X = [(0 : ℚ), 1] :: [[2, 3]] ∧
    oEx.fitOk (bicCandCfg 2) sEx.X sEx.lengths = true ∧
    oEx.score ⟨bicCandCfg 2, sEx.X, sEx.lengths⟩ sEx.X sEx.lengths = some 7 ∧
    bicTry sEx oEx 2 = Except.ok
      (-2 * 7 + (((2 : ℤ) * 2 + 2 * 2 * ([(0 : ℚ), 1]).length - 1 : ℤ) : ℚ) *
        oEx.log sEx.X.length,
       ⟨bicCandCfg 2, sEx.X, sEx.lengths⟩) :=
  ⟨rfl, rfl, rfl, c6_bic_score_formula sEx oEx 2 7 [0, 1] [[2, 3]] rfl rfl rfl⟩

/-- C7: CV's fold policy is a function of the number of sequences: with 1
sequence the fallback model is returned immediately and no splitter is built;
with 2 sequences the splitter is `KFold(n_splits=2)` (2 folds); with 3 or more
it is `KFold(n_splits=3, random_state=self.random_state)` (3 folds, seeded with
the configured seed); and `KFold(k).split` yields exactly `k` folds. -/
theorem c7_cv_fold_policy (s : Selector) (o : Oracle) (ms : ℕ)
    (hms : pyMin (s.sequences.map List.length) = Except.ok ms) :
    cvSplitSpec 1 s.random_state = none ∧
    cvSplitSpec 2 s.random_state = some ⟨2, false, none⟩ ∧
    (∀ n, 3 ≤ n → cvSplitSpec n s.random_state = some ⟨3, false, some s.random_state⟩) ∧
    (∀ k n, (kfoldSplit k n).length = k) ∧
    (s.sequences.length = 1 →
      (cvSelect s o).1 = Except.ok (base_model (clampMax s ms) o s.n_constant)) := by
  refine ⟨rfl, rfl, ?_, kfoldSplit_length, ?_⟩
  · intro n hn
    simp only [cvSplitSpec]
    rw [if_neg (by omega), if_neg (by omega)]
  · intro h1
    have h1c : (clampMax s ms).sequences.length = 1 := h1
    simp only [cvSelect, hms, cvSplitSpec, h1c, if_true]
    rfl

/-- C7 witness: concrete instance of `c7_cv_fold_policy` on a word with
exactly one sequence. -/
theorem c7_cv_fold_policy_witness :
    pyMin (sEx.sequences.map List.length) = Except.ok 2 ∧
    sEx.sequences.length = 1 ∧
    (cvSelect sEx oEx).1 = Except.ok (base_model (clampMax sEx 2) oEx sEx.n_constant) :=
  ⟨rfl, rfl, (c7_cv_fold_policy sEx oEx 2 rfl).2.2.2.2 rfl⟩

/-- C8 counterexample: the claim says each per-candidate fit passes the
configured `random_state` to the trainer. On a selector configured with seed
14 and an all-succeeding trainer, BIC's selected model was fitted by the
call at line 90, whose constructor arguments (recorded in the model) contain
no `random_state` at all. -/
theorem c8_candidate_fit_unseeded_counterexample :
    (bicSelect sEx oEx).1 = Except.ok (some ⟨bicCandCfg 2, sEx.X, sEx.lengths⟩) ∧
    (bicCandCfg 2).randomState = none ∧
    sEx.random_state = 14 := by
  refine ⟨?_, rfl, rfl⟩
  norm_num [bicSelect, bicLoop, pyMin, bicTry, fitE, scoreE, base_model, baseCfg, bicCandCfg,
    clampMax, candRange, ltOpt, sEx, oEx, seqP, List.range', Bind.bind, Except.bind,
    Except.toOption]

/-- C8 (amended): only the fallback `base_model` fit passes the configured
`random_state` (and `covariance_type`); the per-candidate fits of BIC (line
90) and DIC (line 126) and the per-fold fits of CV (line 186) pass only the
state count and `n_iter=1000`, no seed. (With the trainer modelled as a
deterministic function, `select()` is still a pure function of the selector
and the trainer, so two identical calls agree — but not because candidate
fits are seeded.) -/
theorem c8_only_base_model_seeded (s : Selector) (o : Oracle) (num : ℕ)
    (c : ℚ × Model) (m : Model)
    (hb : bicTry s o num = Except.ok c) (hm : base_model s o num = some m) :
    c.2.config.randomState = none ∧
    (dicCandCfg num).randomState = none ∧
    (∀ tX tL, (cvFitModel num tX tL).config.randomState = none) ∧
    m.config.randomState = some s.random_state := by
  refine ⟨?_, rfl, fun _ _ => rfl, ?_⟩
  · by_cases h1 : o.fitOk (bicCandCfg num) s.X s.lengths
    · rcases h2 : o.score ⟨bicCandCfg num, s.X, s.lengths⟩ s.X s.lengths with _ | v
      · simp [bicTry, fitE, scoreE, h1, h2, Bind.bind, Except.bind] at hb
      · rcases hX : s.X with _ | ⟨r, rest⟩
        · rw [hX] at h1 h2
          simp [bicTry, fitE, scoreE, hX, h1, h2, Bind.bind, Except.bind] at hb
        · rw [hX] at h1 h2
          simp only [bicTry, fitE, scoreE, hX, h1, h2, if_true, Bind.bind, Except.bind,
            Except.ok.injEq] at hb
          rw [← hb]
          rfl
    · simp [bicTry, fitE, h1, Bind.bind, Except.bind] at hb
  · simp only [base_model, fitE, Except.toOption] at hm
    by_cases h1 : o.fitOk (baseCfg s num) s.X s.lengths
    · rw [if_pos h1] at hm
      cases hm
      rfl
    · rw [if_neg h1] at hm
      cases hm

/-- C8 witness: concrete instance of `c8_only_base_model_seeded` on the
all-succeeding trainer. -/
theorem c8_only_base_model_seeded_witness :
    bicTry sEx oEx 2 = Except.ok (8, ⟨bicCandCfg 2, sEx.X, sEx.lengths⟩) ∧
    base_model sEx oEx 2 = some ⟨baseCfg sEx 2, sEx.X, sEx.lengths⟩ ∧
    (((8 : ℚ), (⟨bicCandCfg 2, sEx.X, sEx.lengths⟩ : Model)).2.config.randomState = none ∧
     (dicCandCfg 2).randomState = none ∧
     (∀ tX tL, (cvFitModel 2 tX tL).config.randomState = none) ∧
     (⟨baseCfg sEx 2, sEx.X, sEx.lengths⟩ : Model).config.randomState = some sEx.random_state) := by
  have hb : bicTry sEx oEx 2 = Except.ok (8, ⟨bicCandCfg 2, sEx.X, sEx.lengths⟩) := by
    norm_num [bicTry, fitE, scoreE, bicCandCfg, sEx, oEx, seqP, Bind.bind, Except.bind]
  exact ⟨hb, rfl, c8_only_base_model_seeded sEx oEx 2 _ _ hb rfl⟩

/-- C9: BIC scans candidates in ascending order, updating only on strict
improvement, so when at least one candidate succeeds the returned model is a
successful candidate of minimum BIC score, and every strictly earlier
successful candidate has a strictly larger score (ties keep the earliest). -/
theorem c9_bic_argmin (s : Selector) (o : Oracle) (ms : ℕ)
    (hms : pyMin (s.sequences.map List.length) = Except.ok ms)
    (hne : bicSuccs (clampMax s ms) o ≠ []) :
    ∃ p l₁ l₂,
      (bicSelect s o).1 = Except.ok (some p.2.2) ∧
      bicSuccs (clampMax s ms) o = l₁ ++ p :: l₂ ∧
      (∀ x ∈ l₁, p.2.1 < x.2.1) ∧
      (∀ x ∈ l₂, p.2.1 ≤ x.2.1) := by
  have hsel : (bicSelect s o).1 = Except.ok
      ((bicSuccs (clampMax s ms) o).foldl bicUpd
        ((none : Option ℚ), base_model (clampMax s ms) o (clampMax s ms).n_constant)).2 := by
    simp only [bicSelect, hms]
    rw [bicLoop_eq_foldl]
    rfl
  obtain ⟨c, cs, hcs⟩ := List.exists_cons_of_ne_nil hne
  rw [hcs, List.foldl_cons] at hsel
  have hfirst : bicUpd ((none : Option ℚ),
      base_model (clampMax s ms) o (clampMax s ms).n_constant) c
      = (some c.2.1, some c.2.2) := by
    simp [bicUpd, ltOpt]
  rw [hfirst] at hsel
  rcases bicFoldl_spec cs c.2.1 (some c.2.2) with
    ⟨heq, hall⟩ | ⟨p, l₁, l₂, heq, hdec, hlt, h₁, h₂⟩
  · exact ⟨c, [], cs, by rw [hsel, heq], by simpa using hcs, by simp, hall⟩
  · refine ⟨p, c :: l₁, l₂, by rw [hsel, heq], by simp [hcs, hdec], ?_, h₂⟩
    intro x hx
    rcases List.mem_cons.mp hx with rfl | hx
    · exact hlt
    · exact h₁ x hx

/-- C9 witness: on a word with candidates 2 and 3 and a trainer whose scores
make candidate 3 score strictly lower (BIC -60 versus -40), the argmin
characterization holds concretely. -/
theorem c9_bic_argmin_witness :
    pyMin (sCx.sequences.map List.length) = Except.ok 3 ∧
    bicSuccs (clampMax sCx 3) oGrow ≠ [] ∧
    (∃ p l₁ l₂,
      (bicSelect sCx oGrow).1 = Except.ok (some p.2.2) ∧
      bicSuccs (clampMax sCx 3) oGrow = l₁ ++ p :: l₂ ∧
      (∀ x ∈ l₁, p.2.1 < x.2.1) ∧
      (∀ x ∈ l₂, p.2.1 ≤ x.2.1)) := by
  have hval : bicSuccs (clampMax sCx 3) oGrow =
      [(2, -40, ⟨bicCandCfg 2, sCx.X, sCx.lengths⟩),
       (3, -60, ⟨bicCandCfg 3, sCx.X, sCx.lengths⟩)] := by
    norm_num [bicSuccs, candRange, bicTry, fitE, scoreE, bicCandCfg, clampMax, sCx, sEx, oGrow,
      seqR, List.range', Except.toOption, List.filterMap_cons, Bind.bind, Except.bind]
  have hne : bicSuccs (clampMax sCx 3) oGrow ≠ [] := by
    rw [hval]
    simp
  exact ⟨rfl, hne, c9_bic_argmin sCx oGrow 3 rfl hne⟩

/-- C10: `select()` on BIC and CV mutates exactly the `max_n_components` field
of the selector, to the minimum of its old value and the shortest sequence
length, and this mutation persists after `select()` returns; Constant and DIC
leave the selector unchanged; no other constructor-set field is modified by
any strategy. -/
theorem c10_select_frame_effect (s : Selector) (o : Oracle) (ms : ℕ)
    (hms : pyMin (s.sequences.map List.length) = Except.ok ms) :
    (bicSelect s o).2 = clampMax s ms ∧
    (cvSelect s o).2 = clampMax s ms ∧
    (dicSelect s o).2 = s ∧
    (constantSelect s o).2 = s := by
  refine ⟨by simp [bicSelect, hms], ?_, rfl, rfl⟩
  simp only [cvSelect, hms]
  split
  · rfl
  · split <;> rfl

/-- C10 witness: concrete instance of `c10_select_frame_effect`. -/
theorem c10_select_frame_effect_witness :
    pyMin (sEx.sequences.map List.length) = Except.ok 2 ∧
    ((bicSelect sEx oEx).2 = clampMax sEx 2 ∧
     (cvSelect sEx oEx).2 = clampMax sEx 2 ∧
     (dicSelect sEx oEx).2 = sEx ∧
     (constantSelect sEx oEx).2 = sEx) :=
  ⟨rfl, c10_select_frame_effect sEx oEx 2 rfl⟩

end ASL
